import Mathlib

/-!
Shallow embedding of the Luxe Systems ("DukaSmart") stock-management server.

Sources embedded here:
  * `src/unnamed/part_014` — the drizzle schema (products, purchases, sales,
    stock_movements, users tables).  Integer columns are modelled as `Int`,
    `decimal(10,2)` money columns as `Rat` (the SQL decimal values are exact),
    nullable columns as `Option`.
  * `src/server/storage.ts` — `DatabaseStorage.createPurchase`, `createSale`,
    `createStockMovement`: the three transactional stock mutators.  A database
    transaction is modelled as a pure state transition on `DB`; a thrown error
    aborts the transaction, so the failing case returns `Except.error` and the
    caller keeps the unchanged state.
  * `src/unnamed/part_011` — the local-credential auth module
    (`authenticateUser`, `requireAuth`, `requirePermission`).
  * `src/server/routes.ts` and `src/unnamed/part_012` — the two route drafts
    (`POST /api/sales`, `POST /api/purchases`, `POST /api/stock-movements`)
    and the in-memory notification feed of `part_012`.
-/

/-- A row of the `products` table (`src/unnamed/part_014`): serial id, name,
unique product code, sub-category reference, `decimal` price, integer
`stock_quantity` and `low_stock_threshold`. -/
structure Product where
  id : Nat
  name : String
  productCode : String
  subCategoryId : Nat
  price : Rat
  stockQuantity : Int
  lowStockThreshold : Int
  deriving Repr, DecidableEq

/-- A row of the `purchases` table (`src/unnamed/part_014`), without the
serial id and timestamp (supplied by the database). -/
structure PurchaseRec where
  productId : Nat
  quantityReceived : Int
  costPerUnit : Rat
  totalCost : Rat
  purchasedBy : String
  supplierName : Option String
  deriving Repr, DecidableEq

/-- A row of the `sales` table (`src/unnamed/part_014`), without the serial id
and timestamp. -/
structure SaleRec where
  productId : Nat
  quantitySold : Int
  salePrice : Rat
  totalAmount : Rat
  soldBy : String
  deriving Repr, DecidableEq

/-- A row of the `stock_movements` table (`src/unnamed/part_014`): the
`movement_type` column is an unconstrained `varchar(10)` (the `'in' or 'out'`
restriction exists only as a comment), so it is modelled as an arbitrary
`String`. -/
structure MovementRec where
  productId : Nat
  movementType : String
  quantity : Int
  reason : Option String
  performedBy : Nat
  deriving Repr, DecidableEq

/-- The database state touched by the stock operations: the `products` table
and the three append-only ledgers. -/
structure DB where
  products : List Product
  purchases : List PurchaseRec
  sales : List SaleRec
  stockMovements : List MovementRec
  deriving Repr, DecidableEq

/-- Model of the select-by-id query, `getProduct` of `src/server/storage.ts`:
the first row of `products` with the given id. -/
def getProduct (db : DB) (id : Nat) : Option Product :=
  db.products.find? (fun p => p.id == id)

/-- Model of the update statement setting `stockQuantity` to
`stockQuantity + delta` where `products.id = pid`: adds `delta` to the stock
of the row with the given id, leaving every other row unchanged. -/
def updateStockBy (ps : List Product) (pid : Nat) (delta : Int) : List Product :=
  ps.map (fun p => if p.id == pid then { p with stockQuantity := p.stockQuantity + delta } else p)

/-- Model of `DatabaseStorage.createPurchase` (`src/server/storage.ts` lines 223-241):
one transaction that inserts the purchase row and adds `quantityReceived` to
the product's stock.  No stock check and no existence check is performed.  The
TS function returns the inserted row; here the appended record plays that
role. -/
def createPurchase (db : DB) (purchase : PurchaseRec) : DB :=
  { db with
    purchases := db.purchases ++ [purchase],
    products := updateStockBy db.products purchase.productId purchase.quantityReceived }

/-- Model of `DatabaseStorage.createSale` (`src/server/storage.ts` lines 248-276): one
transaction that selects the product, throws `"Insufficient stock"` when the
product is missing or its stock is below `quantitySold` (rolling the
transaction back, so the caller's state is unchanged), and otherwise inserts
the sale row and subtracts `quantitySold` from the product's stock. -/
def createSale (db : DB) (sale : SaleRec) : Except String DB :=
  match getProduct db sale.productId with
  | none => .error "Insufficient stock"
  | some product =>
    if product.stockQuantity < sale.quantitySold then
      .error "Insufficient stock"
    else
      .ok { db with
            sales := db.sales ++ [sale],
            products := updateStockBy db.products sale.productId (-sale.quantitySold) }

/-- Model of `DatabaseStorage.createStockMovement` (`src/server/storage.ts` lines
291-311): one transaction that inserts the movement row and applies
`stockChange = movementType === 'in' ? quantity : -quantity` to the product's
stock.  There is no stock-sufficiency check and no restriction on the
`movementType` string. -/
def createStockMovement (db : DB) (movement : MovementRec) : DB :=
  let stockChange := if movement.movementType == "in" then movement.quantity else -movement.quantity
  { db with
    stockMovements := db.stockMovements ++ [movement],
    products := updateStockBy db.products movement.productId stockChange }

/-- The stock recorded for a product id in a list of product rows, `none`
when no row has the id. -/
def stockOfP (ps : List Product) (pid : Nat) : Option Int :=
  (ps.find? (fun p => p.id == pid)).map (fun p => p.stockQuantity)

/-- The stock a product row of the database currently records, `none` when no
row has the id. -/
def stockOf (db : DB) (pid : Nat) : Option Int :=
  stockOfP db.products pid

/-- Sum of `quantityReceived` over the purchase rows of one product (the
Purchase(+) part of the spec's replay). -/
def purchaseSum : List PurchaseRec → Nat → Int
  | [], _ => 0
  | r :: l, pid => (if r.productId == pid then r.quantityReceived else 0) + purchaseSum l pid

/-- Sum of `quantitySold` over the sale rows of one product (the Sale(-) part
of the spec's replay). -/
def saleSum : List SaleRec → Nat → Int
  | [], _ => 0
  | r :: l, pid => (if r.productId == pid then r.quantitySold else 0) + saleSum l pid

/-- Signed sum of `quantity` over the movement rows of one product, positive
exactly for `movementType = "in"` (mirroring the sign convention of
`createStockMovement`). -/
def movementSum : List MovementRec → Nat → Int
  | [], _ => 0
  | r :: l, pid =>
    (if r.productId == pid then (if r.movementType == "in" then r.quantity else -r.quantity) else 0)
      + movementSum l pid

/-- The replayed ledger balance of one product: purchases minus sales plus
signed movements. -/
def ledger (db : DB) (pid : Nat) : Int :=
  purchaseSum db.purchases pid - saleSum db.sales pid + movementSum db.stockMovements pid

/-- One successful stock-mutating storage call. -/
inductive StockOp where
  | purchase (p : PurchaseRec)
  | sale (s : SaleRec)
  | movement (m : MovementRec)
  deriving Repr

/-- Run one storage mutator; `createSale` can fail, the other two cannot. -/
def applyOp (db : DB) : StockOp → Except String DB
  | .purchase p => .ok (createPurchase db p)
  | .sale s => createSale db s
  | .movement m => .ok (createStockMovement db m)

/-- Run a sequence of storage mutators, stopping at the first failure (a
failed call leaves the state unchanged, so there is nothing to keep). -/
def runOps (db : DB) : List StockOp → Except String DB
  | [] => .ok db
  | op :: ops =>
    match applyOp db op with
    | .error e => .error e
    | .ok db' => runOps db' ops

/-- A row of the `users` table (`src/unnamed/part_014`): `email`, name parts
and `permissions` (a jsonb array of permission strings) are nullable. -/
structure UserRow where
  id : Nat
  username : String
  email : Option String
  passwordHash : String
  firstName : Option String
  lastName : Option String
  role : String
  permissions : Option (List String)
  isActive : Bool
  deriving Repr, DecidableEq

/-- Model of `DatabaseStorage.getUserById`. -/
def getUserById (usersT : List UserRow) (id : Nat) : Option UserRow :=
  usersT.find? (fun u => u.id == id)

/-- Model of `DatabaseStorage.getUserByUsername`. -/
def getUserByUsername (usersT : List UserRow) (username : String) : Option UserRow :=
  usersT.find? (fun u => u.username == username)

/-- The HTTP responses the embedded handlers can produce.  `ok` is a 200
`res.json(...)` of the created entity; `okAction` is the 200
`res.json(\x7bsuccess, actionType\x7d)` of the notification action endpoint. -/
inductive HttpResp where
  | ok
  | okAction (actionType : String)
  | badRequest (msg : String)
  | unauthorized (msg : String)
  | forbidden (msg : String)
  | notFound (msg : String)
  | serverError (msg : String)
  deriving Repr, DecidableEq

/-- Model of `authenticateUser` (`src/unnamed/part_011` lines 341-370): looks the user
up by username, fails on a missing or inactive user or a failed password
check, and otherwise returns the user.  `verify` abstracts `bcrypt.compare`;
the last-login update and the audit-log insert performed on success touch
neither the users table's identity fields nor the authentication decision and
are not modelled. -/
def authenticateUser (verify : String → String → Bool) (usersT : List UserRow)
    (username password : String) : Option UserRow :=
  match getUserByUsername usersT username with
  | none => none
  | some user =>
    if !user.isActive then none
    else if verify password user.passwordHash then some user
    else none

/-- Model of `requireAuth` (`src/unnamed/part_011` lines 423-441): a missing session
is a 401; a session whose user row is missing or inactive destroys the
session and is a 401; otherwise the user is attached to the request. -/
def requireAuth (usersT : List UserRow) (sessionUserId : Option Nat) :
    Except HttpResp UserRow :=
  match sessionUserId with
  | none => .error (.unauthorized "Authentication required")
  | some uid =>
    match getUserById usersT uid with
    | none => .error (.unauthorized "User not found or inactive")
    | some user =>
      if !user.isActive then .error (.unauthorized "User not found or inactive")
      else .ok user

/-- Model of `requirePermission` (`src/unnamed/part_011` lines 450-468): 401 when no
user is attached; admins pass unconditionally; employees pass exactly when
the permission string is a member of their (non-null) permissions array. -/
def requirePermission (permission : String) (user : Option UserRow) :
    Except HttpResp Unit :=
  match user with
  | none => .error (.unauthorized "Authentication required")
  | some u =>
    if u.role == "admin" then .ok ()
    else
      match u.permissions with
      | none => .error (.forbidden ("Permission denied: " ++ permission ++ " required"))
      | some ps =>
        if ps.contains permission then .ok ()
        else .error (.forbidden ("Permission denied: " ++ permission ++ " required"))

/-- The JS idiom `req.user.username || req.user.email` used by the `part_012`
handlers: the username unless it is falsy (empty), then the email (an absent
email renders as the empty string). -/
def usernameOrEmail (u : UserRow) : String :=
  if u.username == "" then u.email.getD "" else u.username

/-- The sales row the `POST /api/sales` handler of `src/server/routes.ts`
(lines 268-325) inserts.  That draft writes the columns of an earlier schema
revision: `quantity`, `unitPrice`, `employeeId` (and it reads and writes
`products.stock`, the stock column's earlier name for `stockQuantity`). -/
structure RoutesSaleRow where
  productId : Nat
  quantity : Int
  unitPrice : Rat
  totalAmount : Rat
  employeeId : Nat
  deriving Repr, DecidableEq

/-- Model of the `POST /api/sales` handler of `src/server/routes.ts` lines 268-325, after
`requireAuth` has attached the user.  It does NOT call
`DatabaseStorage.createSale` and performs no stock check: it inserts the sale
row with `totalAmount = quantitySold * salePrice`, unconditionally subtracts
`quantitySold` from the product's stock, and only then selects the product for
the notification text — a missing product throws there (caught as a 500)
AFTER both writes, which are not inside a transaction and stay. -/
def postSalesRoutesTs (ps : List Product) (salesR : List RoutesSaleRow) (userId : Nat)
    (productId : Nat) (quantitySold : Int) (salePrice : Rat) :
    HttpResp × List Product × List RoutesSaleRow :=
  let row : RoutesSaleRow :=
    { productId := productId, quantity := quantitySold, unitPrice := salePrice,
      totalAmount := (quantitySold : Rat) * salePrice, employeeId := userId }
  let salesR' := salesR ++ [row]
  let ps' := updateStockBy ps productId (-quantitySold)
  match ps'.find? (fun p => p.id == productId) with
  | none => (.serverError "Failed to create sale", ps', salesR')
  | some _ => (.ok, ps', salesR')

/-- The `src/server/routes.ts` registration
`app.post('/api/sales', requireAuth, handler)` — note: no
`requirePermission` middleware is attached on this draft. -/
def apiSalesRoutesTs (usersT : List UserRow) (session : Option Nat)
    (ps : List Product) (salesR : List RoutesSaleRow)
    (productId : Nat) (quantitySold : Int) (salePrice : Rat) :
    HttpResp × List Product × List RoutesSaleRow :=
  match requireAuth usersT session with
  | .error e => (e, ps, salesR)
  | .ok u => postSalesRoutesTs ps salesR u.id productId quantitySold salePrice

/-- Model of the `POST /api/sales` handler of `src/unnamed/part_012` lines 608-671, after
the middleware: inserts the sale row with
`totalAmount = (quantitySold * salePrice).toString()` (recorded here as the
exact numeric value) and `soldBy = req.user.username || req.user.email`,
subtracts `quantitySold` from `stockQuantity` (no stock check, two separate
statements, no transaction), then selects the product for the notification —
a missing product throws (500) after the writes, which stay. -/
def postSalesPart12 (db : DB) (u : UserRow)
    (productId : Nat) (quantitySold : Int) (salePrice : Rat) : HttpResp × DB :=
  let sale : SaleRec :=
    { productId := productId, quantitySold := quantitySold, salePrice := salePrice,
      totalAmount := (quantitySold : Rat) * salePrice, soldBy := usernameOrEmail u }
  let db1 := { db with sales := db.sales ++ [sale] }
  let db2 := { db1 with products := updateStockBy db1.products productId (-quantitySold) }
  match getProduct db2 productId with
  | none => (.serverError "Failed to create sale", db2)
  | some _ => (.ok, db2)

/-- The `src/unnamed/part_012` registration
`app.post('/api/sales', requireAuth, requirePermission("sales"), handler)`. -/
def apiSalesPart12 (usersT : List UserRow) (session : Option Nat) (db : DB)
    (productId : Nat) (quantitySold : Int) (salePrice : Rat) : HttpResp × DB :=
  match requireAuth usersT session with
  | .error e => (e, db)
  | .ok u =>
    match requirePermission "sales" (some u) with
    | .error e => (e, db)
    | .ok _ => postSalesPart12 db u productId quantitySold salePrice

/-- Model of the `POST /api/purchases` handler of `src/server/routes.ts` lines 230-244:
builds the purchase with `totalCost = Number(costPerUnit) * quantityReceived`
and the purchaser identity taken from the session claims (passed in here),
then calls the transactional `DatabaseStorage.createPurchase`. -/
def postPurchasesRoutesTs (db : DB) (purchasedBy : String) (productId : Nat)
    (quantityReceived : Int) (costPerUnit : Rat) (supplierName : Option String) :
    HttpResp × DB :=
  let purchase : PurchaseRec :=
    { productId := productId, quantityReceived := quantityReceived,
      costPerUnit := costPerUnit, totalCost := costPerUnit * (quantityReceived : Rat),
      purchasedBy := purchasedBy, supplierName := supplierName }
  (.ok, createPurchase db purchase)

/-- Model of the `POST /api/purchases` handler of `src/unnamed/part_012` lines 447-497,
after `requireAuth`: inserts the purchase row with
`totalCost = (quantityReceived * costPerUnit).toString()` (the exact numeric
value here), adds `quantityReceived` to `stockQuantity` (two separate
statements, no transaction), then selects the product for the notification —
a missing product throws (500) after the writes, which stay. -/
def postPurchasesPart12 (db : DB) (u : UserRow) (productId : Nat)
    (quantityReceived : Int) (costPerUnit : Rat) (supplierName : Option String) :
    HttpResp × DB :=
  let purchase : PurchaseRec :=
    { productId := productId, quantityReceived := quantityReceived,
      costPerUnit := costPerUnit, totalCost := (quantityReceived : Rat) * costPerUnit,
      purchasedBy := usernameOrEmail u, supplierName := supplierName }
  let db1 := { db with purchases := db.purchases ++ [purchase] }
  let db2 := { db1 with products := updateStockBy db1.products productId quantityReceived }
  match getProduct db2 productId with
  | none => (.serverError "Failed to create purchase", db2)
  | some _ => (.ok, db2)

/-- Model of the `POST /api/stock-movements` handler of `src/server/routes.ts` lines
338-351: parses the body and directly calls the transactional
`DatabaseStorage.createStockMovement` — no stock-sufficiency check happens
anywhere on this path. -/
def postStockMovementsRoutesTs (db : DB) (mv : MovementRec) : HttpResp × DB :=
  (.ok, createStockMovement db mv)

/-- The write part shared by the branches of the `part_012`
`POST /api/stock-movements` handler: insert the movement row, adjust the
stock by `+quantity` when `movementType === 'in'` and `-quantity` otherwise
(two separate statements, no transaction), then select the product for the
notification — a missing product throws (500) after the writes, which
stay. -/
def movementWrites (db : DB) (mv : MovementRec) : HttpResp × DB :=
  let delta := if mv.movementType == "in" then mv.quantity else -mv.quantity
  let db1 := { db with stockMovements := db.stockMovements ++ [mv] }
  let db2 := { db1 with products := updateStockBy db1.products mv.productId delta }
  match getProduct db2 mv.productId with
  | none => (.serverError "Failed to create stock movement", db2)
  | some _ => (.ok, db2)

/-- Model of the `POST /api/stock-movements` handler of `src/unnamed/part_012` lines
510-584, after the middleware (`requireAuth, requirePermission("stock_in")`):
for an `'out'` movement it first checks the product and returns the 400
domain error `"Insufficient stock available"` when the product is missing or
its stock is below the quantity — before any write; every other movement type
proceeds straight to the writes. -/
def postStockMovementsPart12 (db : DB) (mv : MovementRec) : HttpResp × DB :=
  if mv.movementType == "out" then
    match getProduct db mv.productId with
    | none => (.badRequest "Insufficient stock available", db)
    | some product =>
      if product.stockQuantity < mv.quantity then
        (.badRequest "Insufficient stock available", db)
      else movementWrites db mv
  else movementWrites db mv

/-- An entry of the in-memory notification feed of `src/unnamed/part_012`
(the `Notification` interface): `type` is named `ntype` here (`type` is a
Lean keyword), the optional `data` payload is kept opaque. -/
structure NotificationRec where
  id : String
  ntype : String
  title : String
  message : String
  data : Option String
  read : Bool
  createdAt : String
  actionType : Option String
  actionLabel : Option String
  deriving Repr, DecidableEq

/-- The mutation `notification.read = true` applied to the object returned by
`notifications.find(n => n.id === id)`: the first entry with the id gets its
read flag set, everything else is untouched. -/
def markFirstRead : List NotificationRec → String → List NotificationRec
  | [], _ => []
  | n :: ns, i => if n.id == i then { n with read := true } :: ns else n :: markFirstRead ns i

/-- Model of `markNotificationAsRead` (`src/unnamed/part_012` lines 79-89): 404 when no
entry has the id, otherwise set the first matching entry's read flag and
answer success. -/
def markNotificationAsRead (feed : List NotificationRec) (i : String) :
    HttpResp × List NotificationRec :=
  match feed.find? (fun n => n.id == i) with
  | none => (.notFound "Notification not found", feed)
  | some _ => (.ok, markFirstRead feed i)

/-- Model of `executeNotificationAction` (`src/unnamed/part_012` lines 108-139): 404
when no entry has the id; otherwise the entry is marked read and
`\x7bsuccess: true, actionType\x7d` is returned.  The action switch only logs —
except that the `'restock'` branch reads `data.productName` from the request
body, which throws (a 500) when `data` is absent, after the read flag was
already set. -/
def executeNotificationAction (feed : List NotificationRec) (i : String)
    (actionType : String) (data : Option String) : HttpResp × List NotificationRec :=
  match feed.find? (fun n => n.id == i) with
  | none => (.notFound "Notification not found", feed)
  | some _ =>
    let feed' := markFirstRead feed i
    if actionType == "restock" then
      match data with
      | none => (.serverError "Internal error", feed')
      | some _ => (.okAction actionType, feed')
    else (.okAction actionType, feed')

/-! Concrete fixtures used by the witness and counterexample theorems. -/

/-- A product with 20 units in stock. -/
def prodA : Product :=
  { id := 1, name := "iPhone 14 Pro", productCode := "P-001", subCategoryId := 1,
    price := 500, stockQuantity := 20, lowStockThreshold := 5 }

/-- A product with 5 units in stock. -/
def prodB : Product :=
  { id := 2, name := "MacBook Air M2", productCode := "P-002", subCategoryId := 1,
    price := 1299, stockQuantity := 5, lowStockThreshold := 5 }

/-- A database with the two products and empty ledgers. -/
def dbA : DB := { products := [prodA, prodB], purchases := [], sales := [], stockMovements := [] }

/-- A sale of 5 units of product 1 at price 500 (the spec's example). -/
def saleA : SaleRec :=
  { productId := 1, quantitySold := 5, salePrice := 500, totalAmount := 2500, soldBy := "alice" }

/-- A sale of 10 units of product 2 — more than its 5 units of stock. -/
def saleOver : SaleRec :=
  { productId := 2, quantitySold := 10, salePrice := 1299, totalAmount := 12990, soldBy := "alice" }

/-- A purchase of 20 units of product 1 at cost 1000 (the spec's example). -/
def purchaseA : PurchaseRec :=
  { productId := 1, quantityReceived := 20, costPerUnit := 1000, totalCost := 20000,
    purchasedBy := "alice", supplierName := some "Apple Inc." }

/-- An outbound movement of 3 units of product 1. -/
def movOut3 : MovementRec :=
  { productId := 1, movementType := "out", quantity := 3, reason := some "damage", performedBy := 1 }

/-- An inbound movement of 2 units of product 1. -/
def movIn2 : MovementRec :=
  { productId := 1, movementType := "in", quantity := 2, reason := none, performedBy := 1 }

/-- An outbound movement of 10 units of product 2 — more than its 5 units of
stock. -/
def movOutOver : MovementRec :=
  { productId := 2, movementType := "out", quantity := 10, reason := none, performedBy := 1 }

/-- A movement whose type string is neither `"in"` nor `"out"`. -/
def movAdjust : MovementRec :=
  { productId := 1, movementType := "adjustment", quantity := 4, reason := none, performedBy := 1 }

/-- A successful operation sequence replaying the ledgers of product 1:
purchase +20, sale -5, movement out -3, movement in +2. -/
def opsA : List StockOp := [.purchase purchaseA, .sale saleA, .movement movOut3, .movement movIn2]

/-- The database `runOps dbA opsA` produces: stock 20 + 20 - 5 - 3 + 2 = 34. -/
def dbA1 : DB :=
  { products := [{ prodA with stockQuantity := 34 }, prodB],
    purchases := [purchaseA], sales := [saleA], stockMovements := [movOut3, movIn2] }

/-- An active employee holding no permissions at all. -/
def empNone : UserRow :=
  { id := 1, username := "jane", email := some "jane@shop.example", passwordHash := "h1",
    firstName := some "Jane", lastName := some "Smith", role := "employee",
    permissions := some [], isActive := true }

/-- An active employee holding only the `sales` permission. -/
def empSales : UserRow :=
  { id := 2, username := "alice", email := none, passwordHash := "h2",
    firstName := none, lastName := none, role := "employee",
    permissions := some ["sales"], isActive := true }

/-- An active admin whose permissions array is empty. -/
def adminA : UserRow :=
  { id := 3, username := "boss", email := none, passwordHash := "h3",
    firstName := none, lastName := none, role := "admin",
    permissions := some [], isActive := true }

/-- A soft-disabled user (`isActive = false`). -/
def userOff : UserRow :=
  { id := 4, username := "gone", email := none, passwordHash := "h4",
    firstName := none, lastName := none, role := "employee",
    permissions := some ["sales"], isActive := false }

/-- The users table holding the four fixture users. -/
def usersA : List UserRow := [empNone, empSales, adminA, userOff]

/-- A password check that accepts exactly the stored hash — a stand-in for
`bcrypt.compare` in the concrete witnesses (`authenticateUser` is proved for
every verifier). -/
def verifyEq (password hash : String) : Bool := password == hash

/-- An unread notification carrying a restock action. -/
def notifA : NotificationRec :=
  { id := "1", ntype := "low_stock", title := "Low Stock Alert",
    message := "iPhone 14 Pro is running low on stock (2 units remaining)",
    data := some "productId 1", read := false, createdAt := "t1",
    actionType := some "restock", actionLabel := some "Add to Purchase List" }

/-- A second, already-read notification. -/
def notifB : NotificationRec :=
  { id := "2", ntype := "new_sale", title := "New Sale Recorded",
    message := "Sale of MacBook Air M2 for 1299.00 by John Doe",
    data := none, read := true, createdAt := "t2",
    actionType := some "view_details", actionLabel := some "View Sale" }

/-- The fixture notification feed. -/
def feedA : List NotificationRec := [notifA, notifB]

/-- The database `createSale dbA saleA` produces: the sale recorded, product
1's stock down from 20 to 15. -/
def dbSold : DB :=
  { products := [{ prodA with stockQuantity := 15 }, prodB],
    purchases := [], sales := [saleA], stockMovements := [] }

/-- The database the `part_012` stock-movement handler produces for `movIn2`:
the movement recorded, product 1's stock up from 20 to 22. -/
def dbMovIn : DB :=
  { products := [{ prodA with stockQuantity := 22 }, prodB],
    purchases := [], sales := [], stockMovements := [movIn2] }

/-- The sale row the `part_012` sales handler inserts for 5 units of product
1 at price 500 sold by `empSales` (`totalAmount` kept as the computed
product). -/
def saleRow5 : SaleRec :=
  { productId := 1, quantitySold := 5, salePrice := 500,
    totalAmount := (5 : Rat) * 500, soldBy := "alice" }

/-- The database the `part_012` sales handler produces for that request. -/
def dbSale5 : DB :=
  { products := [{ prodA with stockQuantity := 15 }, prodB],
    purchases := [], sales := [saleRow5], stockMovements := [] }

/-- The sale row the `src/server/routes.ts` sales handler inserts for the
same request. -/
def routesRow5 : RoutesSaleRow :=
  { productId := 1, quantity := 5, unitPrice := 500,
    totalAmount := (5 : Rat) * 500, employeeId := 2 }

/-- The products table after that request: product 1's stock down to 15. -/
def psAfter5 : List Product := [{ prodA with stockQuantity := 15 }, prodB]

/-- The purchase row the `src/server/routes.ts` purchases handler builds for
20 units of product 1 at cost 1000 (`totalCost` kept as the computed
product). -/
def purchRowR : PurchaseRec :=
  { productId := 1, quantityReceived := 20, costPerUnit := 1000,
    totalCost := (1000 : Rat) * 20, purchasedBy := "claims-sub-1",
    supplierName := some "Apple Inc." }

/-- The database `createPurchase` then produces: stock 20 + 20 = 40. -/
def dbPurchR : DB :=
  { products := [{ prodA with stockQuantity := 40 }, prodB],
    purchases := [purchRowR], sales := [], stockMovements := [] }

/-- The purchase row the `part_012` purchases handler inserts for the same
request made by `empSales`. -/
def purchRowV : PurchaseRec :=
  { productId := 1, quantityReceived := 20, costPerUnit := 1000,
    totalCost := (20 : Rat) * 1000, purchasedBy := "alice",
    supplierName := some "Apple Inc." }

/-- The database the `part_012` purchases handler produces. -/
def dbPurchV : DB :=
  { products := [{ prodA with stockQuantity := 40 }, prodB],
    purchases := [purchRowV], sales := [], stockMovements := [] }

/-! Helper lemmas about product lookup, stock updates and the ledgers. -/

theorem stockOfP_updateStockBy_self (ps : List Product) (pid : Nat) (d : Int) :
    stockOfP (updateStockBy ps pid d) pid = (stockOfP ps pid).map (fun s => s + d) := by
  induction ps with
  | nil => rfl
  | cons a l ih =>
    simp only [stockOfP, updateStockBy, List.map_cons] at ih ⊢
    cases hm : (a.id == pid) with
    | false =>
      rw [if_neg (by simp [hm]), List.find?_cons_of_neg _ (by simp [hm]),
        List.find?_cons_of_neg _ (by simp [hm])]
      exact ih
    | true =>
      rw [if_pos rfl,
        List.find?_cons_of_pos (p := fun q : Product => q.id == pid) _
          (show (({ a with stockQuantity := a.stockQuantity + d } : Product).id == pid) = true from hm),
        List.find?_cons_of_pos (p := fun q : Product => q.id == pid) _ hm]
      rfl

theorem stockOfP_updateStockBy_ne (ps : List Product) (pid : Nat) (d : Int) (pid' : Nat)
    (h : pid' ≠ pid) :
    stockOfP (updateStockBy ps pid d) pid' = stockOfP ps pid' := by
  induction ps with
  | nil => rfl
  | cons a l ih =>
    simp only [stockOfP, updateStockBy, List.map_cons] at ih ⊢
    cases hm : (a.id == pid) with
    | false =>
      rw [if_neg (by simp [hm])]
      cases hf : (a.id == pid') with
      | false =>
        rw [List.find?_cons_of_neg _ (by simp [hf]), List.find?_cons_of_neg _ (by simp [hf])]
        exact ih
      | true =>
        rw [List.find?_cons_of_pos (p := fun q : Product => q.id == pid') _ hf,
          List.find?_cons_of_pos (p := fun q : Product => q.id == pid') _ hf]
    | true =>
      have hpe : a.id = pid := by simpa using hm
      have hne : (a.id == pid') = false := by
        simp only [beq_eq_false_iff_ne, ne_eq, hpe]
        exact fun hc => h hc.symm
      rw [if_pos rfl,
        List.find?_cons_of_neg (p := fun q : Product => q.id == pid') _
          (show ¬ (({ a with stockQuantity := a.stockQuantity + d } : Product).id == pid') = true by simp [hne]),
        List.find?_cons_of_neg _ (by simp [hne])]
      exact ih

theorem purchaseSum_append (l : List PurchaseRec) (r : PurchaseRec) (pid : Nat) :
    purchaseSum (l ++ [r]) pid
      = purchaseSum l pid + (if r.productId == pid then r.quantityReceived else 0) := by
  induction l with
  | nil => simp [purchaseSum]
  | cons a l ih => simp [purchaseSum, ih]; ring

theorem saleSum_append (l : List SaleRec) (r : SaleRec) (pid : Nat) :
    saleSum (l ++ [r]) pid
      = saleSum l pid + (if r.productId == pid then r.quantitySold else 0) := by
  induction l with
  | nil => simp [saleSum]
  | cons a l ih => simp [saleSum, ih]; ring

theorem movementSum_append (l : List MovementRec) (r : MovementRec) (pid : Nat) :
    movementSum (l ++ [r]) pid
      = movementSum l pid
        + (if r.productId == pid then (if r.movementType == "in" then r.quantity else -r.quantity) else 0) := by
  induction l with
  | nil => simp [movementSum]
  | cons a l ih => simp [movementSum, ih]; ring

theorem applyOp_stock_shift (db db' : DB) (op : StockOp) (pid : Nat) (s : Int)
    (h : applyOp db op = .ok db') (hs : stockOf db pid = some s) :
    stockOf db' pid = some (s + (ledger db' pid - ledger db pid)) := by
  cases op with
  | purchase p =>
    simp only [applyOp, Except.ok.injEq] at h
    subst h
    have hled : ledger (createPurchase db p) pid
        = ledger db pid + (if p.productId == pid then p.quantityReceived else 0) := by
      simp only [ledger, createPurchase, purchaseSum_append]
      ring
    rw [hled]
    by_cases hpid : pid = p.productId
    · subst hpid
      have hupd := stockOfP_updateStockBy_self db.products p.productId p.quantityReceived
      show stockOfP (updateStockBy db.products p.productId p.quantityReceived) p.productId = _
      rw [hupd, show stockOfP db.products p.productId = some s from hs]
      simp
    · have hne : (p.productId == pid) = false := by
        simp only [beq_eq_false_iff_ne, ne_eq]
        exact fun hc => hpid hc.symm
      have hupd := stockOfP_updateStockBy_ne db.products p.productId p.quantityReceived pid hpid
      show stockOfP (updateStockBy db.products p.productId p.quantityReceived) pid = _
      rw [hupd, show stockOfP db.products pid = some s from hs, hne]
      simp
  | sale srec =>
    simp only [applyOp, createSale] at h
    cases hfind : getProduct db srec.productId with
    | none => rw [hfind] at h; cases h
    | some prod =>
      rw [hfind] at h
      dsimp only at h
      by_cases hlt : prod.stockQuantity < srec.quantitySold
      · rw [if_pos hlt] at h; cases h
      · rw [if_neg hlt] at h
        injection h with h
        subst h
        have hled : ∀ q : Nat, ledger { db with
              sales := db.sales ++ [srec],
              products := updateStockBy db.products srec.productId (-srec.quantitySold) } q
            = ledger db q - (if srec.productId == q then srec.quantitySold else 0) := by
          intro q
          simp only [ledger, saleSum_append]
          ring
        rw [hled]
        by_cases hpid : pid = srec.productId
        · subst hpid
          have hupd := stockOfP_updateStockBy_self db.products srec.productId (-srec.quantitySold)
          show stockOfP (updateStockBy db.products srec.productId (-srec.quantitySold)) srec.productId = _
          rw [hupd, show stockOfP db.products srec.productId = some s from hs]
          simp
        · have hne : (srec.productId == pid) = false := by
            simp only [beq_eq_false_iff_ne, ne_eq]
            exact fun hc => hpid hc.symm
          have hupd := stockOfP_updateStockBy_ne db.products srec.productId (-srec.quantitySold) pid hpid
          show stockOfP (updateStockBy db.products srec.productId (-srec.quantitySold)) pid = _
          rw [hupd, show stockOfP db.products pid = some s from hs, hne]
          simp
  | movement m =>
    simp only [applyOp, Except.ok.injEq] at h
    subst h
    have hled : ledger (createStockMovement db m) pid
        = ledger db pid
          + (if m.productId == pid then (if m.movementType == "in" then m.quantity else -m.quantity) else 0) := by
      simp only [ledger, createStockMovement, movementSum_append]
      ring
    rw [hled]
    by_cases hpid : pid = m.productId
    · subst hpid
      have hupd := stockOfP_updateStockBy_self db.products m.productId
        (if m.movementType == "in" then m.quantity else -m.quantity)
      show stockOfP (updateStockBy db.products m.productId
        (if m.movementType == "in" then m.quantity else -m.quantity)) m.productId = _
      rw [hupd, show stockOfP db.products m.productId = some s from hs]
      simp
    · have hne : (m.productId == pid) = false := by
        simp only [beq_eq_false_iff_ne, ne_eq]
        exact fun hc => hpid hc.symm
      have hupd := stockOfP_updateStockBy_ne db.products m.productId
        (if m.movementType == "in" then m.quantity else -m.quantity) pid hpid
      show stockOfP (updateStockBy db.products m.productId
        (if m.movementType == "in" then m.quantity else -m.quantity)) pid = _
      rw [hupd, show stockOfP db.products pid = some s from hs, hne]
      simp

theorem runOps_stock_shift (ops : List StockOp) (db db' : DB) (pid : Nat) (s : Int)
    (h : runOps db ops = .ok db') (hs : stockOf db pid = some s) :
    stockOf db' pid = some (s + (ledger db' pid - ledger db pid)) := by
  induction ops generalizing db s with
  | nil =>
    simp only [runOps, Except.ok.injEq] at h
    subst h
    simpa using hs
  | cons op ops ih =>
    simp only [runOps] at h
    cases happ : applyOp db op with
    | error e => rw [happ] at h; cases h
    | ok dbm =>
      rw [happ] at h
      have h1 := applyOp_stock_shift db dbm op pid s happ hs
      have h2 := ih dbm (s + (ledger dbm pid - ledger db pid)) h h1
      rw [h2]
      congr 1
      ring

/-- C3: for every product and every sequence of successful createPurchase /
createSale / createStockMovement operations starting from a database whose
ledgers are empty and whose product has its initial stock, the stored
stockQuantity afterwards equals the initial value plus the sum of
quantityReceived over the product's purchase rows, minus the sum of
quantitySold over its sale rows, plus the signed (positive for "in", negative otherwise) sum of
quantity over its movement rows — no drift. -/
theorem C3_stock_replay_no_drift (ops : List StockOp) (db0 db1 : DB) (pid : Nat) (s0 : Int)
    (hpur : db0.purchases = []) (hsal : db0.sales = []) (hmov : db0.stockMovements = [])
    (hrun : runOps db0 ops = .ok db1) (hinit : stockOf db0 pid = some s0) :
    stockOf db1 pid
      = some (s0 + purchaseSum db1.purchases pid - saleSum db1.sales pid
              + movementSum db1.stockMovements pid) := by
  have h := runOps_stock_shift ops db0 db1 pid s0 hrun hinit
  have hzero : ledger db0 pid = 0 := by
    simp [ledger, hpur, hsal, hmov, purchaseSum, saleSum, movementSum]
  rw [h, hzero]
  congr 1
  simp only [ledger]
  ring

/-- C3 witness: replaying purchase +20, sale -5, movement out -3, movement in
+2 on a product starting at stock 20 through the storage layer ends at stock
34, which the replayed ledger reproduces. -/
theorem C3_stock_replay_no_drift_witness :
    runOps dbA opsA = .ok dbA1
      ∧ stockOf dbA1 1
          = some (20 + purchaseSum dbA1.purchases 1 - saleSum dbA1.sales 1
                  + movementSum dbA1.stockMovements 1)
      ∧ stockOf dbA1 1 = some 34 :=
  ⟨rfl, C3_stock_replay_no_drift opsA dbA dbA1 1 20 rfl rfl rfl rfl rfl, rfl⟩

/-- C1 counterexample: the claim says a sale whose quantity exceeds stock is
rejected with "Insufficient stock", with no sale row written and stock
unchanged.  Through the `src/server/routes.ts` `POST /api/sales` route (which
never calls `DatabaseStorage.createSale`), an authenticated request selling
10 units of product 2, which has only 5 in stock, instead answers 200, writes
the sale row, and drives the stock to -5. -/
theorem C1_counterexample :
    (apiSalesRoutesTs usersA (some 2) [prodA, prodB] [] 2 10 1299).1 = .ok
      ∧ ((apiSalesRoutesTs usersA (some 2) [prodA, prodB] [] 2 10 1299).2.2).length = 1
      ∧ stockOfP (apiSalesRoutesTs usersA (some 2) [prodA, prodB] [] 2 10 1299).2.1 2
          = some (-5) :=
  ⟨rfl, rfl, rfl⟩

/-- C1 (amended): the storage-layer transaction `DatabaseStorage.createSale`
does behave as claimed — when the product is missing or its stock is below
`quantitySold` it fails with the domain error "Insufficient stock" and the
caller's state is unchanged (the transaction rolls back, writing nothing);
otherwise it appends exactly the sale row and decrements the product's stock
by `quantitySold` in the same atomic step, leaving other tables and other
products untouched.  The `POST /api/sales` route handlers present in this
source, however, do not call `createSale` and perform no stock check (see the
counterexample). -/
theorem C1_createSale_checked (db : DB) (sale : SaleRec) :
    ((∀ p, getProduct db sale.productId = some p → p.stockQuantity < sale.quantitySold) →
        createSale db sale = .error "Insufficient stock")
      ∧ (∀ p, getProduct db sale.productId = some p → sale.quantitySold ≤ p.stockQuantity →
          ∃ db', createSale db sale = .ok db'
            ∧ db'.sales = db.sales ++ [sale]
            ∧ db'.purchases = db.purchases
            ∧ db'.stockMovements = db.stockMovements
            ∧ stockOf db' sale.productId = some (p.stockQuantity - sale.quantitySold)
            ∧ ∀ q, q ≠ sale.productId → stockOf db' q = stockOf db q) := by
  constructor
  · intro hins
    cases hfind : getProduct db sale.productId with
    | none => simp [createSale, hfind]
    | some p => simp [createSale, hfind, hins p hfind]
  · intro p hfind hle
    refine ⟨{ db with
        sales := db.sales ++ [sale],
        products := updateStockBy db.products sale.productId (-sale.quantitySold) },
      ?_, rfl, rfl, rfl, ?_, ?_⟩
    · simp [createSale, hfind, not_lt.mpr hle]
    · have hstock : stockOfP db.products sale.productId = some p.stockQuantity := by
        unfold getProduct at hfind
        unfold stockOfP
        rw [hfind]
        rfl
      show stockOfP (updateStockBy db.products sale.productId (-sale.quantitySold))
          sale.productId = _
      rw [stockOfP_updateStockBy_self, hstock]
      simp [Int.sub_eq_add_neg]
    · intro q hq
      show stockOfP (updateStockBy db.products sale.productId (-sale.quantitySold)) q
          = stockOf db q
      rw [stockOfP_updateStockBy_ne db.products sale.productId (-sale.quantitySold) q hq]
      rfl

/-- C1 witness: on the fixtures, an oversized sale is refused by `createSale`
with the domain error, and the spec's 5-unit sale goes through, appending the
row and leaving stock 15. -/
theorem C1_createSale_checked_witness :
    createSale dbA saleOver = .error "Insufficient stock"
      ∧ createSale dbA saleA = .ok dbSold
      ∧ dbSold.sales = [saleA]
      ∧ stockOf dbSold 1 = some 15 := by
  have h1 := (C1_createSale_checked dbA saleOver).1 (by
    intro p hp
    rw [show getProduct dbA saleOver.productId = some prodB from rfl] at hp
    injection hp with hpe
    subst hpe
    decide)
  obtain ⟨db', hok, hsales, -, -, hstock, -⟩ :=
    (C1_createSale_checked dbA saleA).2 prodA rfl (by decide)
  have hdb : db' = dbSold := by
    have h := hok.symm.trans (show createSale dbA saleA = .ok dbSold from rfl)
    injection h
  subst hdb
  exact ⟨h1, hok, by rw [hsales]; rfl, hstock.trans (by decide)⟩

theorem movementWrites_spec (db : DB) (mv : MovementRec) (p : Product)
    (hfind : getProduct db mv.productId = some p) :
    ∃ db', movementWrites db mv = (.ok, db')
      ∧ db'.stockMovements = db.stockMovements ++ [mv]
      ∧ db'.purchases = db.purchases
      ∧ db'.sales = db.sales
      ∧ stockOf db' mv.productId
          = some (p.stockQuantity
                  + (if mv.movementType == "in" then mv.quantity else -mv.quantity)) := by
  have hstock : stockOfP db.products mv.productId = some p.stockQuantity := by
    unfold getProduct at hfind
    unfold stockOfP
    rw [hfind]
    rfl
  have hupd := stockOfP_updateStockBy_self db.products mv.productId
    (if mv.movementType == "in" then mv.quantity else -mv.quantity)
  rw [hstock] at hupd
  have hfind2 : ∃ q, (updateStockBy db.products mv.productId
      (if mv.movementType == "in" then mv.quantity else -mv.quantity)).find?
        (fun x => x.id == mv.productId) = some q := by
    rcases hq : (updateStockBy db.products mv.productId
        (if mv.movementType == "in" then mv.quantity else -mv.quantity)).find?
          (fun x => x.id == mv.productId) with _ | q
    · rw [stockOfP, hq] at hupd
      cases hupd
    · exact ⟨q, hq⟩
  obtain ⟨q, hq⟩ := hfind2
  refine ⟨{ db with
      stockMovements := db.stockMovements ++ [mv],
      products := updateStockBy db.products mv.productId
        (if mv.movementType == "in" then mv.quantity else -mv.quantity) },
    ?_, rfl, rfl, rfl, ?_⟩
  · unfold movementWrites
    show (match (updateStockBy db.products mv.productId
        (if mv.movementType == "in" then mv.quantity else -mv.quantity)).find?
          (fun x => x.id == mv.productId) with
      | none => _
      | some _ => _) = _
    rw [hq]
  · show stockOfP (updateStockBy db.products mv.productId
        (if mv.movementType == "in" then mv.quantity else -mv.quantity)) mv.productId = _
    exact hupd

/-- C2 counterexample: the claim says an "out" movement whose quantity
exceeds stock aborts with a domain error, writing nothing.  The
`src/server/routes.ts` `POST /api/stock-movements` route calls
`DatabaseStorage.createStockMovement`, which performs no stock check: an
"out" movement of 10 units against product 2's stock of 5 answers 200,
writes the movement row, and drives the stock to -5. -/
theorem C2_counterexample :
    (postStockMovementsRoutesTs dbA movOutOver).1 = .ok
      ∧ (postStockMovementsRoutesTs dbA movOutOver).2.stockMovements = [movOutOver]
      ∧ stockOf (postStockMovementsRoutesTs dbA movOutOver).2 2 = some (-5) :=
  ⟨rfl, rfl, rfl⟩

/-- C2 (amended): the `part_012` `POST /api/stock-movements` handler does
behave as claimed — an "out" movement against a missing product or one whose
stock is below the quantity is rejected with the 400 domain error
"Insufficient stock available" before anything is written, and otherwise the
movement row is appended and the stock adjusted by +quantity for "in" and
-quantity otherwise in the same composite step (two sequential statements
rather than one database transaction).  The storage-layer
`createStockMovement` used by the `src/server/routes.ts` registration
performs no such check (see the counterexample). -/
theorem C2_stock_movement_part12 (db : DB) (mv : MovementRec) :
    ((mv.movementType = "out" →
        (∀ p, getProduct db mv.productId = some p → p.stockQuantity < mv.quantity) →
        postStockMovementsPart12 db mv = (.badRequest "Insufficient stock available", db)))
      ∧ (∀ p, getProduct db mv.productId = some p →
          (mv.movementType = "out" → mv.quantity ≤ p.stockQuantity) →
          ∃ db', postStockMovementsPart12 db mv = (.ok, db')
            ∧ db'.stockMovements = db.stockMovements ++ [mv]
            ∧ db'.purchases = db.purchases
            ∧ db'.sales = db.sales
            ∧ stockOf db' mv.productId
                = some (p.stockQuantity
                        + (if mv.movementType == "in" then mv.quantity else -mv.quantity))) := by
  constructor
  · intro hout hins
    cases hfind : getProduct db mv.productId with
    | none => simp [postStockMovementsPart12, hout, hfind]
    | some p => simp [postStockMovementsPart12, hout, hfind, hins p hfind]
  · intro p hfind hsuf
    by_cases hout : mv.movementType = "out"
    · have hle := hsuf hout
      have hspec := movementWrites_spec db mv p hfind
      simpa [postStockMovementsPart12, hout, hfind, not_lt.mpr hle] using hspec
    · have hb : (mv.movementType == "out") = false := by
        simp only [beq_eq_false_iff_ne, ne_eq]
        exact hout
      have hspec := movementWrites_spec db mv p hfind
      simpa [postStockMovementsPart12, hb] using hspec

/-- C2 witness: on the fixtures, the `part_012` handler refuses the oversized
"out" movement with the 400 domain error leaving the database unchanged, and
an "in" movement of 2 units goes through, ending at stock 22. -/
theorem C2_stock_movement_part12_witness :
    postStockMovementsPart12 dbA movOutOver = (.badRequest "Insufficient stock available", dbA)
      ∧ postStockMovementsPart12 dbA movIn2 = (.ok, dbMovIn)
      ∧ dbMovIn.stockMovements = [movIn2]
      ∧ stockOf dbMovIn 1 = some 22 := by
  have h1 := (C2_stock_movement_part12 dbA movOutOver).1 rfl (by
    intro p hp
    rw [show getProduct dbA movOutOver.productId = some prodB from rfl] at hp
    injection hp with hpe
    subst hpe
    decide)
  obtain ⟨db', hok, hmoves, -, -, hstock⟩ :=
    (C2_stock_movement_part12 dbA movIn2).2 prodA rfl
      (by intro h; exact absurd h (by decide))
  have hdb : db' = dbMovIn := by
    have h := hok.symm.trans (show postStockMovementsPart12 dbA movIn2 = (.ok, dbMovIn) from rfl)
    injection h with _ h2
  subst hdb
  exact ⟨h1, hok, by rw [hmoves]; rfl, hstock.trans (by decide)⟩

/-- C10: in `DatabaseStorage.createStockMovement` the stock adjustment is
decided solely by string equality of `movementType` with "in": the row is
always written (the operation cannot fail and the schema's `movement_type`
varchar is unconstrained), stock increases by `quantity` exactly when
`movementType = "in"`, and decreases by `quantity` for EVERY other string —
not only "out". -/
theorem C10_movement_type_string_eq (db : DB) (mv : MovementRec) (p : Product)
    (hfind : getProduct db mv.productId = some p) :
    (createStockMovement db mv).stockMovements = db.stockMovements ++ [mv]
      ∧ (mv.movementType = "in" →
          stockOf (createStockMovement db mv) mv.productId = some (p.stockQuantity + mv.quantity))
      ∧ (mv.movementType ≠ "in" →
          stockOf (createStockMovement db mv) mv.productId
            = some (p.stockQuantity - mv.quantity)) := by
  have hstock : stockOfP db.products mv.productId = some p.stockQuantity := by
    unfold getProduct at hfind
    unfold stockOfP
    rw [hfind]
    rfl
  refine ⟨rfl, ?_, ?_⟩
  · intro hin
    have hb : (mv.movementType == "in") = true := by simp [hin]
    show stockOfP (updateStockBy db.products mv.productId
        (if mv.movementType == "in" then mv.quantity else -mv.quantity)) mv.productId = _
    rw [stockOfP_updateStockBy_self, hstock, hb]
    rfl
  · intro hnin
    have hb : (mv.movementType == "in") = false := by
      simp only [beq_eq_false_iff_ne, ne_eq]
      exact hnin
    show stockOfP (updateStockBy db.products mv.productId
        (if mv.movementType == "in" then mv.quantity else -mv.quantity)) mv.productId = _
    rw [stockOfP_updateStockBy_self, hstock, hb]
    simp [Int.sub_eq_add_neg]

/-- C10 witness: a movement typed "adjustment" — outside the "in"/"out"
vocabulary — succeeds on the fixture database and subtracts its 4 units,
leaving stock 16. -/
theorem C10_movement_type_string_eq_witness :
    (createStockMovement dbA movAdjust).stockMovements = [movAdjust]
      ∧ stockOf (createStockMovement dbA movAdjust) 1 = some 16 := by
  obtain ⟨hrec, -, hsub⟩ := C10_movement_type_string_eq dbA movAdjust prodA rfl
  exact ⟨by rw [hrec]; rfl, (hsub (by decide)).trans (by decide)⟩

/-- C5: for every successfully created sale of quantity `q` at unit price
`price` (the product exists — both handlers answer 200 exactly then), the
recorded `totalAmount` is exactly `q * price` and the product's stock drops
by exactly `q`: first for the `src/server/routes.ts` handler, then for the
`part_012` variant. -/
theorem C5_sale_total_and_stock (u : UserRow) (ps : List Product) (salesR : List RoutesSaleRow)
    (db : DB) (pid : Nat) (q : Int) (price : Rat) (p : Product) :
    (stockOfP ps pid = some p.stockQuantity →
        ∃ ps', postSalesRoutesTs ps salesR u.id pid q price
            = (.ok, ps', salesR ++ [{ productId := pid, quantity := q, unitPrice := price, totalAmount := (q : Rat) * price, employeeId := u.id }])
          ∧ stockOfP ps' pid = some (p.stockQuantity - q))
      ∧ (getProduct db pid = some p →
          ∃ db', postSalesPart12 db u pid q price = (.ok, db')
            ∧ db'.sales = db.sales ++ [{ productId := pid, quantitySold := q, salePrice := price, totalAmount := (q : Rat) * price, soldBy := usernameOrEmail u }]
            ∧ stockOf db' pid = some (p.stockQuantity - q)) := by
  constructor
  · intro hstock
    have hupd := stockOfP_updateStockBy_self ps pid (-q)
    rw [hstock] at hupd
    have hfind2 : ∃ w, (updateStockBy ps pid (-q)).find? (fun x => x.id == pid) = some w := by
      rcases hq : (updateStockBy ps pid (-q)).find? (fun x => x.id == pid) with _ | w
      · rw [stockOfP, hq] at hupd
        cases hupd
      · exact ⟨w, hq⟩
    obtain ⟨w, hw⟩ := hfind2
    refine ⟨updateStockBy ps pid (-q), ?_, ?_⟩
    · unfold postSalesRoutesTs
      show (match (updateStockBy ps pid (-q)).find? (fun x => x.id == pid) with
        | none => _
        | some _ => _) = _
      rw [hw]
    · rw [hupd]
      simp [Int.sub_eq_add_neg]
  · intro hfind
    have hstock : stockOfP db.products pid = some p.stockQuantity := by
      unfold getProduct at hfind
      unfold stockOfP
      rw [hfind]
      rfl
    have hupd := stockOfP_updateStockBy_self db.products pid (-q)
    rw [hstock] at hupd
    have hfind2 : ∃ w, (updateStockBy db.products pid (-q)).find? (fun x => x.id == pid) = some w := by
      rcases hq : (updateStockBy db.products pid (-q)).find? (fun x => x.id == pid) with _ | w
      · rw [stockOfP, hq] at hupd
        cases hupd
      · exact ⟨w, hq⟩
    obtain ⟨w, hw⟩ := hfind2
    refine ⟨{ db with sales := db.sales ++ [{ productId := pid, quantitySold := q, salePrice := price, totalAmount := (q : Rat) * price, soldBy := usernameOrEmail u }], products := updateStockBy db.products pid (-q) }, ?_, rfl, ?_⟩
    · unfold postSalesPart12
      show (match (updateStockBy db.products pid (-q)).find? (fun x => x.id == pid) with
        | none => _
        | some _ => _) = _
      rw [hw]
    · show stockOfP (updateStockBy db.products pid (-q)) pid = _
      rw [hupd]
      simp [Int.sub_eq_add_neg]

/-- C5 witness: the spec's example — 5 units at price 500 — through both
handlers: totalAmount is the product 5 * 500, which equals 2500 exactly, and
stock drops from 20 to 15. -/
theorem C5_sale_total_and_stock_witness :
    postSalesPart12 dbA empSales 1 5 500 = (.ok, dbSale5)
      ∧ saleRow5.totalAmount = 2500
      ∧ dbSale5.sales = [saleRow5]
      ∧ stockOf dbSale5 1 = some 15
      ∧ postSalesRoutesTs [prodA, prodB] [] empSales.id 1 5 500 = (.ok, psAfter5, [routesRow5])
      ∧ routesRow5.totalAmount = 2500
      ∧ stockOfP psAfter5 1 = some 15 := by
  obtain ⟨db', hok, hsales, hstock⟩ :=
    (C5_sale_total_and_stock empSales [prodA, prodB] [] dbA 1 5 500 prodA).2 rfl
  have hdb : db' = dbSale5 := by
    have h := hok.symm.trans (show postSalesPart12 dbA empSales 1 5 500 = (.ok, dbSale5) from rfl)
    injection h with _ h2
  subst hdb
  obtain ⟨ps', hok2, hstock2⟩ :=
    (C5_sale_total_and_stock empSales [prodA, prodB] [] dbA 1 5 500 prodA).1 rfl
  have hps : ps' = psAfter5 := by
    have h := hok2.symm.trans
      (show postSalesRoutesTs [prodA, prodB] [] empSales.id 1 5 500 = (.ok, psAfter5, [routesRow5]) from rfl)
    injection h with _ h2
    injection h2 with h3 _
  subst hps
  refine ⟨hok, ?_, by rw [hsales]; rfl, hstock.trans (by decide), ?_, ?_, hstock2.trans (by decide)⟩
  · show (5 : Rat) * 500 = 2500
    norm_num
  · exact hok2
  · show (5 : Rat) * 500 = 2500
    norm_num

/-- C6: for every successfully created purchase of `n` units at cost `c` per
unit, the recorded `totalCost` is exactly the product of the two and the
product's stock rises by exactly `n`: first for the `src/server/routes.ts`
handler (which computes `costPerUnit * quantityReceived` and calls the
transactional `createPurchase`), then for the `part_012` variant (which
computes `quantityReceived * costPerUnit` and writes directly). -/
theorem C6_purchase_total_and_stock (u : UserRow) (purchasedBy : String) (db : DB)
    (pid : Nat) (n : Int) (c : Rat) (sup : Option String) (p : Product)
    (hfind : getProduct db pid = some p) :
    (∃ dbR, postPurchasesRoutesTs db purchasedBy pid n c sup = (.ok, dbR)
        ∧ dbR.purchases = db.purchases ++ [{ productId := pid, quantityReceived := n, costPerUnit := c, totalCost := c * (n : Rat), purchasedBy := purchasedBy, supplierName := sup }]
        ∧ stockOf dbR pid = some (p.stockQuantity + n))
      ∧ (∃ dbV, postPurchasesPart12 db u pid n c sup = (.ok, dbV)
        ∧ dbV.purchases = db.purchases ++ [{ productId := pid, quantityReceived := n, costPerUnit := c, totalCost := (n : Rat) * c, purchasedBy := usernameOrEmail u, supplierName := sup }]
        ∧ stockOf dbV pid = some (p.stockQuantity + n)) := by
  have hstock : stockOfP db.products pid = some p.stockQuantity := by
    unfold getProduct at hfind
    unfold stockOfP
    rw [hfind]
    rfl
  have hupd := stockOfP_updateStockBy_self db.products pid n
  rw [hstock] at hupd
  have hfind2 : ∃ w, (updateStockBy db.products pid n).find? (fun x => x.id == pid) = some w := by
    rcases hq : (updateStockBy db.products pid n).find? (fun x => x.id == pid) with _ | w
    · rw [stockOfP, hq] at hupd
      cases hupd
    · exact ⟨w, hq⟩
  obtain ⟨w, hw⟩ := hfind2
  constructor
  · refine ⟨_, rfl, rfl, ?_⟩
    show stockOfP (updateStockBy db.products pid n) pid = _
    exact hupd
  · refine ⟨{ db with purchases := db.purchases ++ [{ productId := pid, quantityReceived := n, costPerUnit := c, totalCost := (n : Rat) * c, purchasedBy := usernameOrEmail u, supplierName := sup }], products := updateStockBy db.products pid n }, ?_, rfl, ?_⟩
    · unfold postPurchasesPart12
      show (match (updateStockBy db.products pid n).find? (fun x => x.id == pid) with
        | none => _
        | some _ => _) = _
      rw [hw]
    · show stockOfP (updateStockBy db.products pid n) pid = _
      exact hupd

/-- C6 witness: the spec's example — 20 units at cost 1000 — through both
handlers: the recorded totalCost is the product, which equals exactly 20000,
and stock rises from 20 to 40. -/
theorem C6_purchase_total_and_stock_witness :
    postPurchasesRoutesTs dbA "claims-sub-1" 1 20 1000 (some "Apple Inc.") = (.ok, dbPurchR)
      ∧ purchRowR.totalCost = 20000
      ∧ dbPurchR.purchases = [purchRowR]
      ∧ stockOf dbPurchR 1 = some 40
      ∧ postPurchasesPart12 dbA empSales 1 20 1000 (some "Apple Inc.") = (.ok, dbPurchV)
      ∧ purchRowV.totalCost = 20000
      ∧ stockOf dbPurchV 1 = some 40 := by
  obtain ⟨⟨dbR, hokR, hrecR, hstockR⟩, ⟨dbV, hokV, hrecV, hstockV⟩⟩ :=
    C6_purchase_total_and_stock empSales "claims-sub-1" dbA 1 20 1000 (some "Apple Inc.") prodA rfl
  have hR : dbR = dbPurchR := by
    have h := hokR.symm.trans
      (show postPurchasesRoutesTs dbA "claims-sub-1" 1 20 1000 (some "Apple Inc.") = (.ok, dbPurchR) from rfl)
    injection h with _ h2
  subst hR
  have hV : dbV = dbPurchV := by
    have h := hokV.symm.trans
      (show postPurchasesPart12 dbA empSales 1 20 1000 (some "Apple Inc.") = (.ok, dbPurchV) from rfl)
    injection h with _ h2
  subst hV
  refine ⟨hokR, ?_, by rw [hrecR]; rfl, hstockR.trans (by decide), hokV, ?_, hstockV.trans (by decide)⟩
  · show (1000 : Rat) * 20 = 20000
    norm_num
  · show (20 : Rat) * 1000 = 20000
    norm_num

/-- C4 counterexample: the claim says an employee whose permissions array
lacks "sales" is rejected with 403 before any sale is recorded on every
authenticated `POST /api/sales` request.  The `src/server/routes.ts`
registration attaches only `requireAuth`: the fixture employee holds no
permissions at all (as the first conjunct certifies, `requirePermission`
would refuse them), yet their request answers 200 and the sale row is
written. -/
theorem C4_counterexample :
    requirePermission "sales" (some empNone)
        = .error (.forbidden "Permission denied: sales required")
      ∧ (apiSalesRoutesTs usersA (some 1) [prodA, prodB] [] 1 5 500).1 = .ok
      ∧ ((apiSalesRoutesTs usersA (some 1) [prodA, prodB] [] 1 5 500).2.2).length = 1 :=
  ⟨rfl, rfl, rfl⟩

/-- C4 (amended): on the `part_012` registration, which attaches
`requirePermission("sales")`, the claim holds — an authenticated employee
whose (non-null) permissions array lacks "sales" receives the 403 denial with
the database untouched, and a user whose role is "admin" passes the
permission gate whatever the permissions array holds.  The
`src/server/routes.ts` registration attaches no permission gate (see the
counterexample). -/
theorem C4_sales_permission_part12 (usersT : List UserRow) (session : Option Nat) (db : DB)
    (pid : Nat) (q : Int) (price : Rat) :
    (∀ u, requireAuth usersT session = .ok u → u.role = "employee" →
        (∀ ps, u.permissions = some ps → "sales" ∉ ps) →
        apiSalesPart12 usersT session db pid q price
          = (.forbidden "Permission denied: sales required", db))
      ∧ (∀ u, u.role = "admin" → requirePermission "sales" (some u) = .ok ()) := by
  constructor
  · intro u hauth hrole hperm
    have hgate : requirePermission "sales" (some u)
        = .error (.forbidden "Permission denied: sales required") := by
      have hadm : (u.role == "admin") = false := by
        rw [hrole]
        rfl
      cases hp : u.permissions with
      | none => simp [requirePermission, hadm, hp]
      | some ps =>
        simp [requirePermission, hadm, hp]
        exact hperm ps hp
    unfold apiSalesPart12
    rw [hauth]
    dsimp only
    rw [hgate]
  · intro u hrole
    simp [requirePermission, hrole]

/-- C4 witness: the fixture employee with an empty permissions array gets the
403 denial from the `part_012` route with the database unchanged, and the
fixture admin, whose permissions array is also empty, passes the gate. -/
theorem C4_sales_permission_part12_witness :
    apiSalesPart12 usersA (some 1) dbA 1 5 500
        = (.forbidden "Permission denied: sales required", dbA)
      ∧ requirePermission "sales" (some adminA) = .ok () := by
  refine ⟨(C4_sales_permission_part12 usersA (some 1) dbA 1 5 500).1 empNone rfl rfl ?_,
    (C4_sales_permission_part12 usersA (some 1) dbA 1 5 500).2 adminA rfl⟩
  intro ps hp
  injection hp with h
  subst h
  simp

/-- C7: for every verifier and users table, `authenticateUser` succeeds with
user `u` exactly when the username lookup returns `u`, `u` is active, and the
password verifies against `u`'s stored hash; and `requireAuth` rejects with
the 401 "User not found or inactive" every session whose user row is missing
or soft-disabled. -/
theorem C7_authentication (verify : String → String → Bool) (usersT : List UserRow)
    (username password : String) :
    (∀ u, authenticateUser verify usersT username password = some u ↔
        (getUserByUsername usersT username = some u ∧ u.isActive = true
          ∧ verify password u.passwordHash = true))
      ∧ (∀ uid, (getUserById usersT uid = none
            ∨ ∃ u, getUserById usersT uid = some u ∧ u.isActive = false) →
          requireAuth usersT (some uid)
            = .error (.unauthorized "User not found or inactive")) := by
  constructor
  · intro u
    constructor
    · intro h
      unfold authenticateUser at h
      cases hfind : getUserByUsername usersT username with
      | none =>
        rw [hfind] at h
        cases h
      | some v =>
        rw [hfind] at h
        dsimp only at h
        by_cases hact : v.isActive
        · rw [show (!v.isActive) = false by simp [hact], if_neg (by simp)] at h
          by_cases hv : verify password v.passwordHash
          · rw [if_pos hv] at h
            injection h with h
            subst h
            exact ⟨rfl, hact, hv⟩
          · rw [if_neg hv] at h
            cases h
        · rw [show (!v.isActive) = true by simp [hact], if_pos rfl] at h
          cases h
    · rintro ⟨hfind, hact, hv⟩
      unfold authenticateUser
      rw [hfind]
      dsimp only
      rw [show (!u.isActive) = false by simp [hact], if_neg (by simp), if_pos hv]
  · intro uid h
    unfold requireAuth
    dsimp only
    cases h with
    | inl hnone => rw [hnone]
    | inr hex =>
      obtain ⟨u, hu, hact⟩ := hex
      rw [hu]
      dsimp only
      rw [show (!u.isActive) = true by simp [hact], if_pos rfl]

/-- C7 witness: with the fixture table, the active user "jane" logs in with
the matching password, and the session of the soft-disabled user 4 is
rejected with the 401. -/
theorem C7_authentication_witness :
    authenticateUser verifyEq usersA "jane" "h1" = some empNone
      ∧ requireAuth usersA (some 4)
          = .error (.unauthorized "User not found or inactive") :=
  ⟨((C7_authentication verifyEq usersA "jane" "h1").1 empNone).mpr ⟨rfl, rfl, rfl⟩,
   (C7_authentication verifyEq usersA "x" "y").2 4 (.inr ⟨userOff, rfl, rfl⟩)⟩

theorem markFirstRead_markFirstRead (l : List NotificationRec) (i : String) :
    markFirstRead (markFirstRead l i) i = markFirstRead l i := by
  induction l with
  | nil => rfl
  | cons n ns ih =>
    by_cases h : (n.id == i) = true
    · simp [markFirstRead, h]
    · simp only [markFirstRead, if_neg h]
      rw [ih]

theorem find?_markFirstRead (l : List NotificationRec) (i : String) (n : NotificationRec)
    (h : l.find? (fun x => x.id == i) = some n) :
    (markFirstRead l i).find? (fun x => x.id == i) = some { n with read := true } := by
  induction l with
  | nil => cases h
  | cons m ms ih =>
    by_cases hm : (m.id == i) = true
    · rw [List.find?_cons_of_pos (p := fun x : NotificationRec => x.id == i) _ hm] at h
      injection h with h
      subst h
      simp only [markFirstRead, if_pos hm]
      exact List.find?_cons_of_pos _ hm
    · rw [List.find?_cons_of_neg (p := fun x : NotificationRec => x.id == i) _ hm] at h
      simp only [markFirstRead, if_neg hm]
      rw [List.find?_cons_of_neg (p := fun x : NotificationRec => x.id == i) _ hm]
      exact ih h

/-- C8: marking a notification as read is idempotent — when the id is in the
feed, the first call answers success and sets the entry's read flag, and a
second call answers success again and leaves the feed exactly as after the
first. -/
theorem C8_mark_read_idempotent (feed : List NotificationRec) (i : String)
    (n : NotificationRec) (h : feed.find? (fun x => x.id == i) = some n) :
    markNotificationAsRead feed i = (.ok, markFirstRead feed i)
      ∧ markNotificationAsRead (markFirstRead feed i) i = (.ok, markFirstRead feed i)
      ∧ (markFirstRead feed i).find? (fun x => x.id == i) = some { n with read := true } := by
  have h2 := find?_markFirstRead feed i n h
  refine ⟨?_, ?_, h2⟩
  · unfold markNotificationAsRead
    rw [h]
  · unfold markNotificationAsRead
    rw [h2]
    dsimp only
    rw [markFirstRead_markFirstRead]

/-- C8 witness: marking notification "1" of the fixture feed read twice:
both calls answer success and the feed after the second call equals the feed
after the first, with the entry's read flag true. -/
theorem C8_mark_read_idempotent_witness :
    markNotificationAsRead feedA "1" = (.ok, markFirstRead feedA "1")
      ∧ markNotificationAsRead (markFirstRead feedA "1") "1" = (.ok, markFirstRead feedA "1")
      ∧ markFirstRead feedA "1" = [{ notifA with read := true }, notifB] := by
  obtain ⟨h1, h2, -⟩ := C8_mark_read_idempotent feedA "1" notifA rfl
  exact ⟨h1, h2, rfl⟩

theorem markFirstRead_length (l : List NotificationRec) (i : String) :
    (markFirstRead l i).length = l.length := by
  induction l with
  | nil => rfl
  | cons n ns ih =>
    by_cases h : (n.id == i) = true
    · simp [markFirstRead, h]
    · simp [markFirstRead, h, ih]

theorem markFirstRead_getElem? (l : List NotificationRec) (i : String) (k : Nat) :
    (markFirstRead l i)[k]? = l[k]?
      ∨ ∃ m, l[k]? = some m ∧ (m.id == i) = true
          ∧ (markFirstRead l i)[k]? = some { m with read := true } := by
  induction l generalizing k with
  | nil => left; rfl
  | cons n ns ih =>
    by_cases h : (n.id == i) = true
    · cases k with
      | zero => right; exact ⟨n, by simp, h, by simp [markFirstRead, h]⟩
      | succ k => left; simp [markFirstRead, h]
    · cases k with
      | zero => left; simp [markFirstRead, h]
      | succ k =>
        rcases ih k with hk | ⟨m, hm1, hm2, hm3⟩
        · left
          simpa [markFirstRead, h] using hk
        · right
          exact ⟨m, by simpa using hm1, hm2, by simpa [markFirstRead, h] using hm3⟩

theorem markFirstRead_hit (l : List NotificationRec) (i : String) (n : NotificationRec)
    (h : l.find? (fun x => x.id == i) = some n) :
    ∃ k : Nat, l[k]? = some n ∧ (n.id == i) = true
      ∧ (markFirstRead l i)[k]? = some { n with read := true } := by
  induction l with
  | nil => cases h
  | cons m ms ih =>
    by_cases hm : (m.id == i) = true
    · rw [List.find?_cons_of_pos (p := fun x : NotificationRec => x.id == i) _ hm] at h
      injection h with h
      subst h
      exact ⟨0, by simp, hm, by simp [markFirstRead, hm]⟩
    · rw [List.find?_cons_of_neg (p := fun x : NotificationRec => x.id == i) _ hm] at h
      obtain ⟨k, h1, h2, h3⟩ := ih h
      exact ⟨k + 1, by simpa using h1, h2, by simpa [markFirstRead, hm] using h3⟩

/-- C9: for every notification id present in the feed and a well-formed
action request (the "restock" branch dereferences the request's `data`), the
execute-action endpoint answers success together with the submitted action
type and changes nothing but the target's read flag: the feed keeps its
length, every position either keeps its entry verbatim or holds the matching
entry with only `read` set to true, and the found entry is indeed marked
read. -/
theorem C9_execute_action_frame (feed : List NotificationRec) (i : String)
    (actionType : String) (data : Option String) (n : NotificationRec)
    (h : feed.find? (fun x => x.id == i) = some n)
    (hdata : actionType = "restock" → data ≠ none) :
    executeNotificationAction feed i actionType data
        = (.okAction actionType, markFirstRead feed i)
      ∧ (markFirstRead feed i).length = feed.length
      ∧ (∀ k : Nat, (markFirstRead feed i)[k]? = feed[k]?
          ∨ ∃ m, feed[k]? = some m ∧ (m.id == i) = true
              ∧ (markFirstRead feed i)[k]? = some { m with read := true })
      ∧ ∃ k : Nat, feed[k]? = some n ∧ (n.id == i) = true
          ∧ (markFirstRead feed i)[k]? = some { n with read := true } := by
  refine ⟨?_, markFirstRead_length feed i, fun k => markFirstRead_getElem? feed i k,
    markFirstRead_hit feed i n h⟩
  unfold executeNotificationAction
  rw [h]
  dsimp only
  by_cases hres : (actionType == "restock") = true
  · have : actionType = "restock" := by simpa using hres
    cases hd : data with
    | none => exact absurd hd (hdata this)
    | some d => rw [if_pos hres]
  · rw [if_neg hres]

/-- C9 witness: executing the "restock" action on notification "1" of the
fixture feed answers success with the submitted action type, and the feed
keeps its length with only the target's read flag changed. -/
theorem C9_execute_action_frame_witness :
    executeNotificationAction feedA "1" "restock" (some "ctx")
        = (.okAction "restock", markFirstRead feedA "1")
      ∧ (markFirstRead feedA "1").length = feedA.length
      ∧ markFirstRead feedA "1" = [{ notifA with read := true }, notifB] := by
  obtain ⟨h1, h2, -, -⟩ := C9_execute_action_frame feedA "1" "restock" (some "ctx") notifA rfl
    (fun _ hc => by cases hc)
  exact ⟨h1, h2, rfl⟩
